import Mathlib

/-
Verification of the stroke-history engine, gesture dispatch and speech-queue
logic of sistema-interactivo-kinect.

The canvas raster is modelled abstractly: OpenCV's drawing primitives
(cv2.line, cv2.circle with thickness -1, cv2.imread followed by cv2.resize)
are deterministic functions of their inputs, so the pixel content of the
canvas is a fold of those primitives over the blank canvas.  A `Raster`
structure packages the primitives; every theorem about pixel identity is
proved for an arbitrary `Raster`, and counterexamples instantiate it with a
small concrete one.
-/

namespace SistemaKinect

/-- A point (x, y), as the Python ints passed to the drawing functions. -/
abbrev Pt : Type := Int × Int

/-- A BGR color tuple as stored in the configuration. -/
abbrev Color : Type := Nat × Nat × Nat

/-- The deterministic rasterization primitives used by dibujo_manager.py.
`line pix p q c g` is cv2.line, `circle pix p r c` is cv2.circle with
thickness -1, `imread nombre` is cv2.imread + resize (none when the image
could not be loaded). -/
structure Raster (Pix : Type) where
  blank : Pix
  line : Pix → Pt → Pt → Color → Nat → Pix
  circle : Pix → Pt → Nat → Color → Pix
  imread : String → Option Pix

/-- A record of historial_trazos: the dicts built by dibujar_punto
({tipo:'trazo', color, grosor, puntos}), borrar_punto
({tipo:'borrado', radio, puntos}) and cargar_dibujo
({tipo:'imagen_cargada', origen, timestamp} — note: no 'puntos' key). -/
inductive Trazo where
  | trazo (color : Color) (grosor : Nat) (puntos : List Pt)
  | borrado (radio : Nat) (puntos : List Pt)
  | imagen (origen : String)
deriving DecidableEq

/-- True for the record shapes that carry a 'puntos' key. -/
def Trazo.esPuntos : Trazo → Bool
  | .trazo _ _ _ => true
  | .borrado _ _ => true
  | .imagen _ => false

/-- The in-memory state of DibujoManager that the drawing operations touch:
resolution (W, H), the canvas, historial_trazos, historial_index, the active
grosor_linea / radio_borrador / color_dibujo, the borrador color from the
configuration, the dibujando flag and the puntos_dibujo buffer. -/
structure DibState (Pix : Type) where
  resolution : Nat × Nat
  dibujo : Pix
  historial : List Trazo
  index : Int
  grosor : Nat
  radio : Nat
  color : Color
  colorBorrador : Color
  dibujando : Bool
  puntosDibujo : List Pt
deriving DecidableEq

/-- The state of a freshly constructed DibujoManager under the default
configuration (resolution [640, 480], grosor 3, radio 30, color [0, 255, 0],
borrador [0, 0, 0], empty history, cursor -1). -/
def estadoInicial {Pix : Type} (R : Raster Pix) : DibState Pix :=
  { resolution := (640, 480), dibujo := R.blank, historial := [], index := -1,
    grosor := 3, radio := 30, color := (0, 255, 0), colorBorrador := (0, 0, 0),
    dibujando := false, puntosDibujo := [] }

/-- trazo['puntos'].append((x, y)).  An imagen_cargada record has no
'puntos' key, so the source raises an uncaught KeyError there: none. -/
def agregarPunto (t : Trazo) (p : Pt) : Option Trazo :=
  match t with
  | .trazo c g pts => some (.trazo c g (pts ++ [p]))
  | .borrado r pts => some (.borrado r (pts ++ [p]))
  | .imagen _ => none

/-- dibujar_punto.  none models an uncaught exception (KeyError on a record
without a 'puntos' key, or IndexError on a bad historial_index).  The
autosave timer check at the end only touches persistence, not this state. -/
def dibujar_punto {Pix : Type} (R : Raster Pix) (s : DibState Pix)
    (x y : Int) : Option (DibState Pix) :=
  if 0 ≤ x ∧ x < (s.resolution.1 : Int) ∧ 0 ≤ y ∧ y < (s.resolution.2 : Int) then
    if s.dibujando = false then
      let h := s.historial.take (s.index + 1).toNat ++
        [Trazo.trazo s.color s.grosor [(x, y)]]
      some { s with puntosDibujo := [(x, y)], dibujando := true,
                    historial := h, index := (h.length : Int) - 1 }
    else
      let hNuevo : Option (List Trazo) :=
        if s.historial ≠ [] ∧ 0 ≤ s.index then
          match s.historial[s.index.toNat]? with
          | none => none
          | some t =>
            match agregarPunto t (x, y) with
            | none => none
            | some t2 => some (s.historial.set s.index.toNat t2)
        else some s.historial
      match hNuevo with
      | none => none
      | some h2 =>
        -- len(puntos_dibujo) > 1 after the append iff the buffer was
        -- nonempty before; puntos_dibujo[-2] is then its previous last point
        match s.puntosDibujo.getLast? with
        | some prev =>
          some { s with puntosDibujo := s.puntosDibujo ++ [(x, y)],
                        historial := h2,
                        dibujo := R.line s.dibujo prev (x, y) s.color s.grosor }
        | none =>
          some { s with puntosDibujo := s.puntosDibujo ++ [(x, y)],
                        historial := h2 }
  else some s

/-- borrar_punto.  The eraser circle is drawn on both branches, after the
history update. -/
def borrar_punto {Pix : Type} (R : Raster Pix) (s : DibState Pix)
    (x y : Int) : Option (DibState Pix) :=
  if 0 ≤ x ∧ x < (s.resolution.1 : Int) ∧ 0 ≤ y ∧ y < (s.resolution.2 : Int) then
    let sOpt : Option (DibState Pix) :=
      if s.dibujando = false then
        let h := s.historial.take (s.index + 1).toNat ++
          [Trazo.borrado s.radio [(x, y)]]
        some { s with dibujando := true, historial := h,
                      index := (h.length : Int) - 1 }
      else
        if s.historial ≠ [] ∧ 0 ≤ s.index then
          match s.historial[s.index.toNat]? with
          | none => none
          | some t =>
            match agregarPunto t (x, y) with
            | none => none
            | some t2 => some { s with historial := s.historial.set s.index.toNat t2 }
        else some s
    match sOpt with
    | none => none
    | some s2 =>
      some { s2 with dibujo := R.circle s2.dibujo (x, y) s.radio s.colorBorrador }
  else some s

/-- terminar_dibujo: close the open stroke and clear the point buffer. -/
def terminar_dibujo {Pix : Type} (s : DibState Pix) : DibState Pix :=
  { s with dibujando := false, puntosDibujo := [] }

/-- limpiar_dibujo: blank canvas, empty history, cursor -1 (the dibujando
flag and puntos_dibujo are not touched by the source). -/
def limpiar_dibujo {Pix : Type} (R : Raster Pix) (s : DibState Pix) : DibState Pix :=
  { s with dibujo := R.blank, historial := [], index := -1 }

/-- The inner loop of _reconstruir_dibujo for a 'trazo' record:
for j in range(1, len(puntos)): cv2.line(puntos[j-1], puntos[j], ...). -/
def renderLineas {Pix : Type} (R : Raster Pix) (c : Color) (g : Nat) :
    List Pt → Pix → Pix
  | [], pix => pix
  | [_], pix => pix
  | p :: q :: resto, pix => renderLineas R c g (q :: resto) (R.line pix p q c g)

/-- One iteration of _reconstruir_dibujo's replay loop.  The source reads
trazo['puntos'] before dispatching on trazo['tipo'], so an imagen_cargada
record raises KeyError: none. -/
def renderTrazo {Pix : Type} (R : Raster Pix) (colB : Color) (pix : Pix) :
    Trazo → Option Pix
  | .trazo c g pts =>
      if pts.length > 1 then some (renderLineas R c g pts pix) else some pix
  | .borrado r pts =>
      some (pts.foldl (fun acc q => R.circle acc q r colB) pix)
  | .imagen _ => none

/-- Replay a list of records in order onto a given canvas. -/
def reconstruirAux {Pix : Type} (R : Raster Pix) (colB : Color) :
    List Trazo → Pix → Option Pix
  | [], pix => some pix
  | t :: resto, pix =>
    match renderTrazo R colB pix t with
    | none => none
    | some pix2 => reconstruirAux R colB resto pix2

/-- The canvas _reconstruir_dibujo computes: replay records
[0, historial_index] from a blank canvas. -/
def reconstruir {Pix : Type} (R : Raster Pix) (s : DibState Pix) : Option Pix :=
  reconstruirAux R s.colorBorrador (s.historial.take (s.index + 1).toNat) R.blank

/-- _reconstruir_dibujo as a state transformer (none: KeyError escaped). -/
def reconstruir_dibujo {Pix : Type} (R : Raster Pix) (s : DibState Pix) :
    Option (DibState Pix) :=
  (reconstruir R s).map fun pix => { s with dibujo := pix }

/-- deshacer: fail at cursor -1, otherwise decrement and rebuild. -/
def deshacer {Pix : Type} (R : Raster Pix) (s : DibState Pix) :
    Option (Bool × DibState Pix) :=
  if 0 ≤ s.index then
    match reconstruir_dibujo R { s with index := s.index - 1 } with
    | some s2 => some (true, s2)
    | none => none
  else some (false, s)

/-- rehacer: fail at the last record, otherwise increment and rebuild. -/
def rehacer {Pix : Type} (R : Raster Pix) (s : DibState Pix) :
    Option (Bool × DibState Pix) :=
  if s.index < (s.historial.length : Int) - 1 then
    match reconstruir_dibujo R { s with index := s.index + 1 } with
    | some s2 => some (true, s2)
    | none => none
  else some (false, s)

/-- cargar_dibujo: on a successful imread the canvas is replaced by the
image and the history is reset to a single imagen_cargada record with
cursor 0.  The dibujando flag is not touched. -/
def cargar_dibujo {Pix : Type} (R : Raster Pix) (s : DibState Pix)
    (nombre : String) : Bool × DibState Pix :=
  match R.imread nombre with
  | none => (false, s)
  | some img =>
    (true, { s with dibujo := img, historial := [Trazo.imagen nombre],
                    index := 0 })

/-- The dictionary deserialized by cargar_sesion.  Each field is none when
the corresponding key is missing from the unpickled dict (reading it then
raises KeyError).  The np.array conversion of datos_sesion['dibujo'] is
folded into the Pix value. -/
structure DatosSesion (Pix : Type) where
  dibujo : Option Pix
  historial_trazos : Option (List Trazo)
  historial_index : Option Int
  color_dibujo : Option Color
  grosor_linea : Option Nat
  radio_borrador : Option Nat

/-- What opening and unpickling the session file produced: the file was not
found (neither directly nor under sesiones_dir), open/pickle.load raised, or
a dict was obtained. -/
inductive ResultadoPickle (Pix : Type) where
  | sinArchivo
  | errorPickle
  | datos (d : DatosSesion Pix)

/-- cargar_sesion: the fields are assigned one by one inside the try block;
a missing key raises KeyError at that assignment and the except clause
returns False, keeping every assignment already made. -/
def cargar_sesion {Pix : Type} (inp : ResultadoPickle Pix) (s : DibState Pix) :
    Bool × DibState Pix :=
  match inp with
  | .sinArchivo => (false, s)
  | .errorPickle => (false, s)
  | .datos d =>
    match d.dibujo with
    | none => (false, s)
    | some pix =>
      let s1 := { s with dibujo := pix }
      match d.historial_trazos with
      | none => (false, s1)
      | some h =>
        let s2 := { s1 with historial := h }
        match d.historial_index with
        | none => (false, s2)
        | some i =>
          let s3 := { s2 with index := i }
          match d.color_dibujo with
          | none => (false, s3)
          | some c =>
            let s4 := { s3 with color := c }
            match d.grosor_linea with
            | none => (false, s4)
            | some g =>
              let s5 := { s4 with grosor := g }
              match d.radio_borrador with
              | none => (false, s5)
              | some r => (true, { s5 with radio := r })

/-- hablar's queueing step: cola_mensajes.insert(0, texto) when prioridad,
else cola_mensajes.append(texto). -/
def encolar {α : Type} (cola : List α) (texto : α) (prioridad : Bool) : List α :=
  if prioridad then texto :: cola else cola ++ [texto]

/-- A sequence of hablar calls (message, prioridad) applied to a queue. -/
def encolarTodos {α : Type} (cola : List α) (msgs : List (α × Bool)) : List α :=
  msgs.foldl (fun c m => encolar c m.1 m.2) cola

/-- The order in which _procesar_cola_habla speaks a queue it drains without
further enqueues: it repeatedly pops index 0. -/
def ordenConsumo {α : Type} : List α → List α
  | [] => []
  | m :: resto => m :: ordenConsumo resto

/-- The priority messages of a call sequence, in enqueue order. -/
def conPrioridad {α : Type} (msgs : List (α × Bool)) : List α :=
  (msgs.filter fun m => m.2 = true).map Prod.fst

/-- The non-priority messages of a call sequence, in enqueue order. -/
def sinPrioridad {α : Type} (msgs : List (α × Bool)) : List α :=
  (msgs.filter fun m => m.2 = false).map Prod.fst

/-- The MotorVoz enum of voice_engine.py. -/
inductive MotorVoz where
  | pyttsx3
  | google_tts
  | azure_tts
  | offline_tts
deriving DecidableEq

/-- The .value string of each enum member. -/
def MotorVoz.value : MotorVoz → String
  | .pyttsx3 => "pyttsx3"
  | .google_tts => "google_tts"
  | .azure_tts => "azure_tts"
  | .offline_tts => "offline_tts"

/-- nuevo_motor in [m.value for m in MotorVoz]. -/
def esNombreMotor (nombre : String) : Bool :=
  nombre = MotorVoz.pyttsx3.value ∨ nombre = MotorVoz.google_tts.value ∨
    nombre = MotorVoz.azure_tts.value ∨ nombre = MotorVoz.offline_tts.value

/-- The environment of the voice facade: which backend libraries imported
(PYTTSX3_DISPONIBLE, GOOGLE_TTS_DISPONIBLE, AZURE_TTS_DISPONIBLE) and
whether each backend's own initialization sequence (engine construction,
credentials, model files) succeeds when attempted. -/
structure VoiceEnv where
  pyttsx3Disponible : Bool
  googleDisponible : Bool
  azureDisponible : Bool
  inicioExitoso : MotorVoz → Bool

/-- The VoiceEngine fields the switch protocol touches: config['motor'],
motor_actual, iniciado, cola_mensajes, hablando. -/
structure VoiceState where
  config_motor : String
  motor_actual : Option MotorVoz
  iniciado : Bool
  cola_mensajes : List String
  hablando : Bool
deriving DecidableEq

/-- _iniciar_pyttsx3: availability check, then the init sequence; on success
motor_actual and iniciado are set and the worker thread is started. -/
def iniciar_pyttsx3 (env : VoiceEnv) (st : VoiceState) : Bool × VoiceState :=
  if env.pyttsx3Disponible = false then (false, st)
  else if env.inicioExitoso .pyttsx3 then
    (true, { st with motor_actual := some .pyttsx3, iniciado := true })
  else (false, st)

/-- _iniciar_google_tts. -/
def iniciar_google_tts (env : VoiceEnv) (st : VoiceState) : Bool × VoiceState :=
  if env.googleDisponible = false then (false, st)
  else if env.inicioExitoso .google_tts then
    (true, { st with motor_actual := some .google_tts, iniciado := true })
  else (false, st)

/-- _iniciar_azure_tts (the subscription-key check is part of the init
sequence folded into inicioExitoso). -/
def iniciar_azure_tts (env : VoiceEnv) (st : VoiceState) : Bool × VoiceState :=
  if env.azureDisponible = false then (false, st)
  else if env.inicioExitoso .azure_tts then
    (true, { st with motor_actual := some .azure_tts, iniciado := true })
  else (false, st)

/-- _iniciar_offline_tts: no availability flag guards it; the model-path
check is part of the init sequence. -/
def iniciar_offline_tts (env : VoiceEnv) (st : VoiceState) : Bool × VoiceState :=
  if env.inicioExitoso .offline_tts then
    (true, { st with motor_actual := some .offline_tts, iniciado := true })
  else (false, st)

/-- iniciar: dispatch on config['motor'] guarded by the availability flags,
falling back to pyttsx3 when the configured motor is not available. -/
def iniciar (env : VoiceEnv) (st : VoiceState) : Bool × VoiceState :=
  let motor := st.config_motor
  if motor = MotorVoz.pyttsx3.value ∧ env.pyttsx3Disponible = true then
    iniciar_pyttsx3 env st
  else if motor = MotorVoz.google_tts.value ∧ env.googleDisponible = true then
    iniciar_google_tts env st
  else if motor = MotorVoz.azure_tts.value ∧ env.azureDisponible = true then
    iniciar_azure_tts env st
  else if motor = MotorVoz.offline_tts.value then
    iniciar_offline_tts env st
  else if env.pyttsx3Disponible = true then
    iniciar_pyttsx3 env st
  else (false, st)

/-- detener: on an iniciado engine it stops playback (external), clears the
hablando flag and empties the queue (limpiar_cola). -/
def detener (st : VoiceState) : Bool × VoiceState :=
  if st.iniciado = false then (false, st)
  else (true, { st with hablando := false, cola_mensajes := [] })

/-- cambiar_motor: validate the name; stop the current backend and clear
iniciado; persist the new selection; start; on failure revert config['motor']
to motor_actual.value (when a previous backend exists) and start again,
still returning the first start's failure. -/
def cambiar_motor (env : VoiceEnv) (st : VoiceState) (nuevo_motor : String) :
    Bool × VoiceState :=
  if esNombreMotor nuevo_motor = false then (false, st)
  else
    let st1 := if st.iniciado then { (detener st).2 with iniciado := false } else st
    let st2 := { st1 with config_motor := nuevo_motor }
    let r := iniciar env st2
    if r.1 then (true, r.2)
    else
      match r.2.motor_actual with
      | some m =>
        let st4 := { r.2 with config_motor := m.value }
        (false, (iniciar env st4).2)
      | none => (false, r.2)

/-- Whether the configured-and-available conditions let iniciar bring up
exactly the backend m. -/
def puedeIniciar (env : VoiceEnv) : MotorVoz → Bool
  | .pyttsx3 => env.pyttsx3Disponible && env.inicioExitoso .pyttsx3
  | .google_tts => env.googleDisponible && env.inicioExitoso .google_tts
  | .azure_tts => env.azureDisponible && env.inicioExitoso .azure_tts
  | .offline_tts => env.inicioExitoso .offline_tts

/-- The facade invariant of the spec: iniciado implies a backend whose start
actually succeeded is the current one. -/
def motorVivo (env : VoiceEnv) (st : VoiceState) : Prop :=
  st.iniciado = true → ∃ m, st.motor_actual = some m ∧ env.inicioExitoso m = true

/-- The finger-extension vector of detectar_dedos_levantados:
[pulgar, indice, medio, anular, menique]. -/
structure Dedos where
  pulgar : Bool
  indice : Bool
  medio : Bool
  anular : Bool
  menique : Bool
deriving DecidableEq

/-- The drawing action chosen by one hand in one frame. -/
inductive AccionGesto where
  | dibujarPunto (x y : Int)
  | borrarPunto (x y : Int)
  | terminarDibujo
deriving DecidableEq

/-- The draw/erase/end branch of _procesar_gestos: dedos_levantados[1] is
indice and dedos_levantados[2:] = [medio, anular, menique]; (x, y) is the
index-fingertip pixel position. -/
def accion_gesto (modo_actual : Option String) (dedos : Dedos) (x y : Int) :
    AccionGesto :=
  if modo_actual = some "dibujar" ∧ dedos.indice = true ∧
      ¬ (dedos.medio = true ∨ dedos.anular = true ∨ dedos.menique = true) then
    .dibujarPunto x y
  else if modo_actual = some "borrar" then .borrarPunto x y
  else .terminarDibujo

/-- f.startswith('autosave_'), on the character sequence of f. -/
def esAutosave (f : String) : Bool := "autosave_".data.isPrefixOf f.data

/-- _auto_guardar_sesion's effect on the sessions directory contents: list
the autosave files; if more than 5, sort and remove all but the last 5;
then write the new autosave file. -/
def auto_guardar_sesion (existentes : List String) (nuevo : String) :
    List String :=
  let autosaves := existentes.filter esAutosave
  let aEliminar :=
    if autosaves.length > 5 then
      (List.insertionSort (· ≤ ·) autosaves).take (autosaves.length - 5)
    else []
  existentes.filter (fun f => decide (f ∉ aEliminar)) ++ [nuevo]

/-- An open draw stroke: the last history record is the trazo being built,
holding exactly the live color, grosor and puntos_dibujo buffer, and the
cursor points at it. -/
def trazoAbierto {Pix : Type} (s : DibState Pix) : Prop :=
  ∃ pre, s.historial = pre ++ [Trazo.trazo s.color s.grosor s.puntosDibujo] ∧
    s.index = (pre.length : Int) ∧ s.puntosDibujo ≠ []

/-- An open erase stroke: the last history record is the borrado being
built, holding the live radio, and the cursor points at it. -/
def borradoAbierto {Pix : Type} (s : DibState Pix) : Prop :=
  ∃ pre pts, s.historial = pre ++ [Trazo.borrado s.radio pts] ∧
    s.index = (pre.length : Int) ∧ pts ≠ []

/-- The drawing-state invariant: a valid cursor, the reconstruction
property (replaying records [0, historial_index] from blank reproduces the
canvas pixels), a history with no imagen_cargada record, and — while a
stroke is open — the cursor on an open record consistent with the live
style settings. -/
structure Inv {Pix : Type} (R : Raster Pix) (s : DibState Pix) : Prop where
  cotas : -1 ≤ s.index ∧ s.index < (s.historial.length : Int)
  recon : reconstruir R s = some s.dibujo
  sinImagen : ∀ t ∈ s.historial, t.esPuntos = true
  abierto : s.dibujando = true → trazoAbierto s ∨ borradoAbierto s

/-- One DibujoManager operation under the homogeneous-stroke discipline:
an open stroke is continued only by the operation kind that opened it, and
undo, redo and clear run only with no stroke open.  This discipline is NOT
everything the dispatcher can do.  In modo 'dibujar' and modo None the else
branch of _procesar_gestos runs terminar_dibujo before a fist can select a
button, so draw strokes close before any mode switch; but the modo 'borrar'
branch calls borrar_punto on every frame and never terminar_dibujo, so
pressing the Dibujar button there leaves the borrado stroke open and the
next dibujar_punto call violates the dibujar side condition below — and,
with it, the reconstruction invariant (see the C1 counterexample,
estadoMixto).  deshacer and rehacer have no dispatcher callers (public API
only); their no-open-stroke side condition is an API-usage assumption. -/
inductive DibStep {Pix : Type} (R : Raster Pix) :
    DibState Pix → DibState Pix → Prop where
  | dibujar (s s' : DibState Pix) (x y : Int) :
      (s.dibujando = true → trazoAbierto s) →
      dibujar_punto R s x y = some s' → DibStep R s s'
  | borrar (s s' : DibState Pix) (x y : Int) :
      (s.dibujando = true → borradoAbierto s) →
      borrar_punto R s x y = some s' → DibStep R s s'
  | terminar (s : DibState Pix) : DibStep R s (terminar_dibujo s)
  | deshacerPaso (s s' : DibState Pix) (b : Bool) :
      s.dibujando = false → deshacer R s = some (b, s') → DibStep R s s'
  | rehacerPaso (s s' : DibState Pix) (b : Bool) :
      s.dibujando = false → rehacer R s = some (b, s') → DibStep R s s'
  | limpiar (s : DibState Pix) :
      s.dibujando = false → DibStep R s (limpiar_dibujo R s)

/-- A small concrete rasterizer over Pix = Nat used to evaluate the
operations on explicit inputs: every primitive bumps a counter and a loaded
image is the canvas 7. -/
def R0 : Raster Nat :=
  { blank := 0,
    line := fun pix _ _ _ _ => pix + 1,
    circle := fun pix _ _ _ => pix + 1,
    imread := fun _ => some 7 }

/-- The state after cargar_dibujo("dibujo.png") on a fresh manager. -/
def estadoImagen : DibState Nat :=
  (cargar_dibujo R0 (estadoInicial R0) "dibujo.png").2

/-- The state deshacer produces from estadoImagen: cursor -1, blank
canvas. -/
def estadoDeshecho : DibState Nat :=
  { estadoImagen with index := -1, dibujo := 0 }

/-- The state after one dibujar_punto(1, 2) on a fresh manager. -/
def estadoTrazo1 : DibState Nat :=
  { (estadoInicial R0) with
      puntosDibujo := [(1, 2)], dibujando := true,
      historial := [Trazo.trazo (0, 255, 0) 3 [(1, 2)]], index := 0 }

/-- estadoTrazo1 with the stroke closed. -/
def estadoTrazoCerrado : DibState Nat := terminar_dibujo estadoTrazo1

/-- A state with one record undone (redo available). -/
def estadoConRedo : DibState Nat :=
  { (estadoInicial R0) with
      historial := [Trazo.trazo (0, 255, 0) 3 [(1, 2)]], index := -1 }

/-- The state after one borrar_punto(3, 4) on a fresh manager: an open
borrado stroke (the eraser circle is already on the canvas). -/
def estadoBorrado1 : DibState Nat :=
  { (estadoInicial R0) with
      dibujando := true, historial := [Trazo.borrado 30 [(3, 4)]],
      index := 0, dibujo := 1 }

/-- The state after dibujar_punto(1, 2) on estadoBorrado1 — the dispatcher
reaches this call by pressing the Dibujar button while in modo 'borrar'
(the borrar branch of _procesar_gestos never runs terminar_dibujo, and
_procesar_accion_boton only sets modo_actual): the draw point is appended
into the still-open borrado record while no pixel is drawn eagerly
(puntos_dibujo held a single point). -/
def estadoMixto : DibState Nat :=
  { estadoBorrado1 with
      puntosDibujo := [(1, 2)],
      historial := [Trazo.borrado 30 [(3, 4), (1, 2)]] }

/-- The state deshacer produces from estadoMixto: cursor -1, blank
canvas. -/
def estadoMixtoDeshecho : DibState Nat :=
  { estadoMixto with index := -1, dibujo := 0 }

/-- The state rehacer produces from estadoMixtoDeshecho: cursor back at 0
and the canvas rebuilt by replay — two eraser circles, where the eager
canvas had one. -/
def estadoMixtoRehecho : DibState Nat :=
  { estadoMixto with dibujo := 2 }

/-- A voice environment where all three libraries imported, pyttsx3 and
azure can start, but google's init sequence fails. -/
def envW : VoiceEnv :=
  { pyttsx3Disponible := true, googleDisponible := true,
    azureDisponible := true,
    inicioExitoso := fun m =>
      match m with
      | .pyttsx3 => true
      | .azure_tts => true
      | _ => false }

/-- A voice environment where the google library did not import (its
availability flag is down) while pyttsx3 and azure work. -/
def envF : VoiceEnv :=
  { pyttsx3Disponible := true, googleDisponible := false,
    azureDisponible := true,
    inicioExitoso := fun m =>
      match m with
      | .pyttsx3 => true
      | .azure_tts => true
      | _ => false }

/-- A facade state running the azure backend. -/
def stAzure : VoiceState :=
  { config_motor := "azure_tts", motor_actual := some .azure_tts,
    iniciado := true, cola_mensajes := [], hablando := false }

theorem concatGetElem {α : Type} (pre : List α) (a : α) :
    (pre ++ [a])[pre.length]? = some a := by
  induction pre with
  | nil => rfl
  | cons x xs ih => simp

theorem concatSet {α : Type} (pre : List α) (a b : α) :
    (pre ++ [a]).set pre.length b = pre ++ [b] := by
  induction pre with
  | nil => rfl
  | cons x xs ih => simp

theorem concatTakePre {α : Type} (pre : List α) (a : α) :
    (pre ++ [a]).take pre.length = pre := by
  induction pre with
  | nil => rfl
  | cons x xs ih => simp

theorem concatTakeTodo {α : Type} (pre : List α) (a : α) :
    (pre ++ [a]).take (pre.length + 1) = pre ++ [a] := by
  have h : (pre ++ [a]).length = pre.length + 1 := by simp
  rw [← h, List.take_length]

theorem getLastExiste {α : Type} (l : List α) (h : l ≠ []) :
    ∃ a, l.getLast? = some a := by
  induction l with
  | nil => exact absurd rfl h
  | cons x xs ih =>
    cases xs with
    | nil => exact ⟨x, rfl⟩
    | cons y ys =>
      obtain ⟨a, ha⟩ := ih (by simp)
      exact ⟨a, by rw [List.getLast?_cons_cons]; exact ha⟩

theorem reconstruirAux_append {Pix : Type} (R : Raster Pix) (colB : Color)
    (l1 l2 : List Trazo) (pix : Pix) :
    reconstruirAux R colB (l1 ++ l2) pix =
      (reconstruirAux R colB l1 pix).bind (reconstruirAux R colB l2) := by
  induction l1 generalizing pix with
  | nil => simp [reconstruirAux]
  | cons t resto ih =>
    simp only [List.cons_append, reconstruirAux]
    cases renderTrazo R colB pix t with
    | none => simp
    | some pix2 => simpa using ih pix2

theorem renderLineas_concat {Pix : Type} (R : Raster Pix) (c : Color) (g : Nat)
    (pts : List Pt) (prev q : Pt) (pix : Pix) (h : pts.getLast? = some prev) :
    renderLineas R c g (pts ++ [q]) pix =
      R.line (renderLineas R c g pts pix) prev q c g := by
  induction pts generalizing pix with
  | nil => simp at h
  | cons p resto ih =>
    cases resto with
    | nil =>
      simp only [List.getLast?_singleton, Option.some.injEq] at h
      subst h
      rfl
    | cons r rs =>
      have h2 : (r :: rs).getLast? = some prev := by
        rw [List.getLast?_cons_cons] at h; exact h
      simp only [List.cons_append, renderLineas]
      exact ih (R.line pix p r c g) h2

theorem renderTrazo_esPuntos {Pix : Type} (R : Raster Pix) (colB : Color)
    (pix : Pix) (t : Trazo) (h : t.esPuntos = true) :
    ∃ p, renderTrazo R colB pix t = some p := by
  cases t with
  | trazo c g pts =>
    by_cases hl : pts.length > 1 <;> simp [renderTrazo, hl]
  | borrado r pts => exact ⟨_, rfl⟩
  | imagen o => simp [Trazo.esPuntos] at h

theorem reconstruirAux_total {Pix : Type} (R : Raster Pix) (colB : Color)
    (l : List Trazo) (pix : Pix) (h : ∀ t ∈ l, t.esPuntos = true) :
    ∃ p, reconstruirAux R colB l pix = some p := by
  induction l generalizing pix with
  | nil => exact ⟨pix, rfl⟩
  | cons t resto ih =>
    obtain ⟨p2, hp2⟩ := renderTrazo_esPuntos R colB pix t (h t (by simp))
    have hresto : ∀ x ∈ resto, x.esPuntos = true :=
      fun x hx => h x (List.mem_cons_of_mem _ hx)
    obtain ⟨p3, hp3⟩ := ih p2 hresto
    exact ⟨p3, by simp only [reconstruirAux, hp2]; exact hp3⟩

theorem dibujar_punto_fuera {Pix : Type} (R : Raster Pix) (s : DibState Pix)
    (x y : Int)
    (hb : ¬ (0 ≤ x ∧ x < (s.resolution.1 : Int) ∧ 0 ≤ y ∧ y < (s.resolution.2 : Int))) :
    dibujar_punto R s x y = some s := by
  unfold dibujar_punto
  rw [if_neg hb]

theorem dibujar_punto_nuevo {Pix : Type} (R : Raster Pix) (s : DibState Pix)
    (x y : Int)
    (hb : 0 ≤ x ∧ x < (s.resolution.1 : Int) ∧ 0 ≤ y ∧ y < (s.resolution.2 : Int))
    (hd : s.dibujando = false) :
    dibujar_punto R s x y =
      some { s with
        puntosDibujo := [(x, y)], dibujando := true,
        historial := s.historial.take (s.index + 1).toNat ++
          [Trazo.trazo s.color s.grosor [(x, y)]],
        index := ((s.historial.take (s.index + 1).toNat ++
          [Trazo.trazo s.color s.grosor [(x, y)]]).length : Int) - 1 } := by
  unfold dibujar_punto
  rw [if_pos hb, if_pos hd]

theorem dibujar_punto_continuar {Pix : Type} (R : Raster Pix) (s : DibState Pix)
    (x y : Int) (pre : List Trazo) (prev : Pt)
    (hb : 0 ≤ x ∧ x < (s.resolution.1 : Int) ∧ 0 ≤ y ∧ y < (s.resolution.2 : Int))
    (hd : s.dibujando = true)
    (hh : s.historial = pre ++ [Trazo.trazo s.color s.grosor s.puntosDibujo])
    (hix : s.index = (pre.length : Int))
    (hprev : s.puntosDibujo.getLast? = some prev) :
    dibujar_punto R s x y =
      some { s with
        puntosDibujo := s.puntosDibujo ++ [(x, y)],
        historial := pre ++
          [Trazo.trazo s.color s.grosor (s.puntosDibujo ++ [(x, y)])],
        dibujo := R.line s.dibujo prev (x, y) s.color s.grosor } := by
  simp only [dibujar_punto, if_pos hb, hd, hix, hh, Int.toNat_natCast,
    concatGetElem, agregarPunto, concatSet, hprev, Bool.true_eq_false,
    if_false, ne_eq, List.append_eq_nil, List.cons_ne_self, and_false,
    not_false_eq_true, Int.natCast_nonneg, and_true, if_true, and_self]

theorem borrar_punto_fuera {Pix : Type} (R : Raster Pix) (s : DibState Pix)
    (x y : Int)
    (hb : ¬ (0 ≤ x ∧ x < (s.resolution.1 : Int) ∧ 0 ≤ y ∧ y < (s.resolution.2 : Int))) :
    borrar_punto R s x y = some s := by
  unfold borrar_punto
  rw [if_neg hb]

theorem borrar_punto_nuevo {Pix : Type} (R : Raster Pix) (s : DibState Pix)
    (x y : Int)
    (hb : 0 ≤ x ∧ x < (s.resolution.1 : Int) ∧ 0 ≤ y ∧ y < (s.resolution.2 : Int))
    (hd : s.dibujando = false) :
    borrar_punto R s x y =
      some { s with
        dibujando := true,
        historial := s.historial.take (s.index + 1).toNat ++
          [Trazo.borrado s.radio [(x, y)]],
        index := ((s.historial.take (s.index + 1).toNat ++
          [Trazo.borrado s.radio [(x, y)]]).length : Int) - 1,
        dibujo := R.circle s.dibujo (x, y) s.radio s.colorBorrador } := by
  simp only [borrar_punto, if_pos hb, if_pos hd]

theorem borrar_punto_continuar {Pix : Type} (R : Raster Pix) (s : DibState Pix)
    (x y : Int) (pre : List Trazo) (pts : List Pt)
    (hb : 0 ≤ x ∧ x < (s.resolution.1 : Int) ∧ 0 ≤ y ∧ y < (s.resolution.2 : Int))
    (hd : s.dibujando = true)
    (hh : s.historial = pre ++ [Trazo.borrado s.radio pts])
    (hix : s.index = (pre.length : Int)) :
    borrar_punto R s x y =
      some { s with
        historial := pre ++ [Trazo.borrado s.radio (pts ++ [(x, y)])],
        dibujo := R.circle s.dibujo (x, y) s.radio s.colorBorrador } := by
  simp only [borrar_punto, if_pos hb, hd, hix, hh, Int.toNat_natCast,
    concatGetElem, agregarPunto, concatSet, Bool.true_eq_false,
    if_false, ne_eq, List.append_eq_nil, List.cons_ne_self, and_false,
    not_false_eq_true, Int.natCast_nonneg, and_true, if_true, and_self]

theorem dibujar_preserva {Pix : Type} (R : Raster Pix) (s s' : DibState Pix)
    (x y : Int) (hI : Inv R s) (hTA : s.dibujando = true → trazoAbierto s)
    (h : dibujar_punto R s x y = some s') : Inv R s' := by
  by_cases hb : 0 ≤ x ∧ x < (s.resolution.1 : Int) ∧ 0 ≤ y ∧ y < (s.resolution.2 : Int)
  · by_cases hd : s.dibujando = false
    · rw [dibujar_punto_nuevo R s x y hb hd] at h
      injection h with h2
      subst h2
      refine ⟨?_, ?_, ?_, ?_⟩
      · dsimp only
        simp only [List.length_append, List.length_singleton]
        omega
      · unfold reconstruir
        dsimp only
        have ht : (((s.historial.take (s.index + 1).toNat ++
            [Trazo.trazo s.color s.grosor [(x, y)]]).length : Int) - 1 + 1).toNat =
            (s.historial.take (s.index + 1).toNat ++
              [Trazo.trazo s.color s.grosor [(x, y)]]).length := by omega
        rw [ht, List.take_length, reconstruirAux_append]
        have hrecon : reconstruirAux R s.colorBorrador
            (s.historial.take (s.index + 1).toNat) R.blank = some s.dibujo := hI.recon
        rw [hrecon]
        simp [reconstruirAux, renderTrazo]
      · intro t ht
        dsimp only at ht
        rcases List.mem_append.mp ht with h1 | h2
        · exact hI.sinImagen t (List.take_subset _ _ h1)
        · simp at h2
          subst h2
          rfl
      · intro _
        left
        refine ⟨s.historial.take (s.index + 1).toNat, rfl, ?_, by simp⟩
        dsimp only
        simp only [List.length_append, List.length_singleton]
        push_cast
        ring
    · have hd2 : s.dibujando = true := by
        revert hd
        cases s.dibujando <;> simp
      obtain ⟨pre, hh, hix, hpd⟩ := hTA hd2
      obtain ⟨prev, hprev⟩ := getLastExiste _ hpd
      rw [dibujar_punto_continuar R s x y pre prev hb hd2 hh hix hprev] at h
      injection h with h2
      subst h2
      have htn : ((pre.length : Int) + 1).toNat = pre.length + 1 := by omega
      have hrecon : reconstruirAux R s.colorBorrador
          (pre ++ [Trazo.trazo s.color s.grosor s.puntosDibujo]) R.blank =
          some s.dibujo := by
        have h0 := hI.recon
        unfold reconstruir at h0
        rw [hh, hix, htn, concatTakeTodo] at h0
        exact h0
      rw [reconstruirAux_append] at hrecon
      obtain ⟨mid, hmid, hrend⟩ := Option.bind_eq_some.mp hrecon
      have hrend2 : renderTrazo R s.colorBorrador mid
          (Trazo.trazo s.color s.grosor s.puntosDibujo) = some s.dibujo := by
        cases hro : renderTrazo R s.colorBorrador mid
            (Trazo.trazo s.color s.grosor s.puntosDibujo) with
        | none => simp [reconstruirAux, hro] at hrend
        | some p =>
          simp only [reconstruirAux, hro, Option.some.injEq] at hrend
          rw [hrend]
      have hLin : renderLineas R s.color s.grosor s.puntosDibujo mid = s.dibujo := by
        by_cases hlen : s.puntosDibujo.length > 1
        · simp only [renderTrazo, if_pos hlen, Option.some.injEq] at hrend2
          exact hrend2
        · have h1 : s.puntosDibujo.length = 1 := by
            have := List.length_pos.mpr hpd
            omega
          obtain ⟨a, ha⟩ := List.length_eq_one.mp h1
          simp only [renderTrazo, if_neg hlen, Option.some.injEq] at hrend2
          rw [ha]
          simpa [renderLineas] using hrend2
      have hgt : (s.puntosDibujo ++ [((x : Int), (y : Int))]).length > 1 := by
        have := List.length_pos.mpr hpd
        simp only [List.length_append, List.length_singleton]
        omega
      refine ⟨?_, ?_, ?_, ?_⟩
      · dsimp only
        rw [hix]
        simp only [List.length_append, List.length_singleton]
        omega
      · unfold reconstruir
        dsimp only
        rw [hix, htn, concatTakeTodo, reconstruirAux_append, hmid]
        simp only [Option.some_bind, reconstruirAux]
        rw [renderTrazo]
        rw [if_pos hgt]
        rw [renderLineas_concat R s.color s.grosor s.puntosDibujo prev (x, y) mid hprev,
          hLin]
      · intro t ht
        dsimp only at ht
        rcases List.mem_append.mp ht with h1 | h2
        · refine hI.sinImagen t ?_
          rw [hh]
          exact List.mem_append_left _ h1
        · simp at h2
          subst h2
          rfl
      · intro _
        left
        exact ⟨pre, rfl, hix, by simp⟩
  · rw [dibujar_punto_fuera R s x y hb] at h
    obtain rfl : s = s' := Option.some.inj h
    exact hI

theorem borrar_preserva {Pix : Type} (R : Raster Pix) (s s' : DibState Pix)
    (x y : Int) (hI : Inv R s) (hBA : s.dibujando = true → borradoAbierto s)
    (h : borrar_punto R s x y = some s') : Inv R s' := by
  by_cases hb : 0 ≤ x ∧ x < (s.resolution.1 : Int) ∧ 0 ≤ y ∧ y < (s.resolution.2 : Int)
  · by_cases hd : s.dibujando = false
    · rw [borrar_punto_nuevo R s x y hb hd] at h
      injection h with h2
      subst h2
      refine ⟨?_, ?_, ?_, ?_⟩
      · dsimp only
        simp only [List.length_append, List.length_singleton]
        omega
      · unfold reconstruir
        dsimp only
        have ht : (((s.historial.take (s.index + 1).toNat ++
            [Trazo.borrado s.radio [(x, y)]]).length : Int) - 1 + 1).toNat =
            (s.historial.take (s.index + 1).toNat ++
              [Trazo.borrado s.radio [(x, y)]]).length := by omega
        rw [ht, List.take_length, reconstruirAux_append]
        have hrecon : reconstruirAux R s.colorBorrador
            (s.historial.take (s.index + 1).toNat) R.blank = some s.dibujo := hI.recon
        rw [hrecon]
        simp [reconstruirAux, renderTrazo]
      · intro t ht
        dsimp only at ht
        rcases List.mem_append.mp ht with h1 | h2
        · exact hI.sinImagen t (List.take_subset _ _ h1)
        · simp at h2
          subst h2
          rfl
      · intro _
        right
        refine ⟨s.historial.take (s.index + 1).toNat, [(x, y)], rfl, ?_, by simp⟩
        dsimp only
        simp only [List.length_append, List.length_singleton]
        push_cast
        ring
    · have hd2 : s.dibujando = true := by
        revert hd
        cases s.dibujando <;> simp
      obtain ⟨pre, pts, hh, hix, hpts⟩ := hBA hd2
      rw [borrar_punto_continuar R s x y pre pts hb hd2 hh hix] at h
      injection h with h2
      subst h2
      have htn : ((pre.length : Int) + 1).toNat = pre.length + 1 := by omega
      have hrecon : reconstruirAux R s.colorBorrador
          (pre ++ [Trazo.borrado s.radio pts]) R.blank = some s.dibujo := by
        have h0 := hI.recon
        unfold reconstruir at h0
        rw [hh, hix, htn, concatTakeTodo] at h0
        exact h0
      rw [reconstruirAux_append] at hrecon
      obtain ⟨mid, hmid, hrend⟩ := Option.bind_eq_some.mp hrecon
      have hfold : pts.foldl
          (fun acc q => R.circle acc q s.radio s.colorBorrador) mid = s.dibujo := by
        simp only [reconstruirAux, renderTrazo, Option.some.injEq] at hrend
        exact hrend
      refine ⟨?_, ?_, ?_, ?_⟩
      · dsimp only
        rw [hix]
        simp only [List.length_append, List.length_singleton]
        omega
      · unfold reconstruir
        dsimp only
        rw [hix, htn, concatTakeTodo, reconstruirAux_append, hmid]
        simp only [Option.some_bind, reconstruirAux, renderTrazo,
          List.foldl_append, List.foldl_cons, List.foldl_nil, hfold]
      · intro t ht
        dsimp only at ht
        rcases List.mem_append.mp ht with h1 | h2
        · refine hI.sinImagen t ?_
          rw [hh]
          exact List.mem_append_left _ h1
        · simp at h2
          subst h2
          rfl
      · intro _
        right
        exact ⟨pre, pts ++ [(x, y)], rfl, hix, by simp⟩
  · rw [borrar_punto_fuera R s x y hb] at h
    obtain rfl : s = s' := Option.some.inj h
    exact hI

theorem deshacer_preserva {Pix : Type} (R : Raster Pix) (s s' : DibState Pix)
    (b : Bool) (hd : s.dibujando = false) (hI : Inv R s)
    (h : deshacer R s = some (b, s')) : Inv R s' := by
  unfold deshacer at h
  by_cases hix : 0 ≤ s.index
  · rw [if_pos hix] at h
    cases hrec : reconstruir_dibujo R { s with index := s.index - 1 } with
    | none =>
      rw [hrec] at h
      exact absurd h (by simp)
    | some s2 =>
      rw [hrec] at h
      injection h with h2
      injection h2 with hb2 hs2
      subst hs2
      unfold reconstruir_dibujo at hrec
      cases hpix : reconstruir R { s with index := s.index - 1 } with
      | none =>
        rw [hpix] at hrec
        simp at hrec
      | some pix =>
        rw [hpix] at hrec
        simp only [Option.map_some', Option.some.injEq] at hrec
        subst hrec
        refine ⟨?_, ?_, ?_, ?_⟩
        · dsimp only
          have := hI.cotas
          omega
        · exact hpix
        · intro t ht
          dsimp only at ht
          exact hI.sinImagen t ht
        · intro habs
          dsimp only at habs
          rw [hd] at habs
          exact absurd habs (by simp)
  · rw [if_neg hix] at h
    injection h with h2
    injection h2 with hb2 hs2
    subst hs2
    exact hI

theorem rehacer_preserva {Pix : Type} (R : Raster Pix) (s s' : DibState Pix)
    (b : Bool) (hd : s.dibujando = false) (hI : Inv R s)
    (h : rehacer R s = some (b, s')) : Inv R s' := by
  unfold rehacer at h
  by_cases hix : s.index < (s.historial.length : Int) - 1
  · rw [if_pos hix] at h
    cases hrec : reconstruir_dibujo R { s with index := s.index + 1 } with
    | none =>
      rw [hrec] at h
      exact absurd h (by simp)
    | some s2 =>
      rw [hrec] at h
      injection h with h2
      injection h2 with hb2 hs2
      subst hs2
      unfold reconstruir_dibujo at hrec
      cases hpix : reconstruir R { s with index := s.index + 1 } with
      | none =>
        rw [hpix] at hrec
        simp at hrec
      | some pix =>
        rw [hpix] at hrec
        simp only [Option.map_some', Option.some.injEq] at hrec
        subst hrec
        refine ⟨?_, ?_, ?_, ?_⟩
        · dsimp only
          have := hI.cotas
          omega
        · exact hpix
        · intro t ht
          dsimp only at ht
          exact hI.sinImagen t ht
        · intro habs
          dsimp only at habs
          rw [hd] at habs
          exact absurd habs (by simp)
  · rw [if_neg hix] at h
    injection h with h2
    injection h2 with hb2 hs2
    subst hs2
    exact hI

theorem terminar_preserva {Pix : Type} (R : Raster Pix) (s : DibState Pix)
    (hI : Inv R s) : Inv R (terminar_dibujo s) := by
  refine ⟨hI.cotas, hI.recon, hI.sinImagen, ?_⟩
  intro habs
  dsimp only [terminar_dibujo] at habs
  exact absurd habs (by simp)

theorem limpiar_preserva {Pix : Type} (R : Raster Pix) (s : DibState Pix)
    (hd : s.dibujando = false) : Inv R (limpiar_dibujo R s) := by
  refine ⟨?_, ?_, ?_, ?_⟩
  · dsimp only [limpiar_dibujo]
    simp
  · rfl
  · intro t ht
    dsimp only [limpiar_dibujo] at ht
    simp at ht
  · intro habs
    dsimp only [limpiar_dibujo] at habs
    rw [hd] at habs
    exact absurd habs (by simp)

/-- C1 (amended): the reconstruction invariant — replaying records
[0, historial_index] from a blank canvas yields exactly the canvas pixels
produced by the eager drawing — holds of the initial state and is preserved
by each DibujoManager operation under the homogeneous-stroke discipline of
DibStep, for histories made of 'trazo' and 'borrado' records.  As stated
the claim fails in two reachable ways (see the counterexample): an
'imagen_cargada' history makes _reconstruir_dibujo raise KeyError, and a
dibujar_punto call continuing an open 'borrado' stroke — reached by
pressing the Dibujar button in modo 'borrar', whose frames never run
terminar_dibujo — appends its point into the borrado record, after which
replay draws an eraser circle the eager canvas does not have. -/
theorem invariante_reconstruccion {Pix : Type} (R : Raster Pix)
    (s s' : DibState Pix) (hI : Inv R s) (h : DibStep R s s') :
    Inv R s' ∧ reconstruir R s' = some s'.dibujo := by
  have hI2 : Inv R s' := by
    match h, hI with
    | .dibujar _ _ x y hTA hcall, hI2 => exact dibujar_preserva R _ _ x y hI2 hTA hcall
    | .borrar _ _ x y hBA hcall, hI2 => exact borrar_preserva R _ _ x y hI2 hBA hcall
    | .terminar _, hI2 => exact terminar_preserva R _ hI2
    | .deshacerPaso _ _ b hd hcall, hI2 => exact deshacer_preserva R _ _ b hd hI2 hcall
    | .rehacerPaso _ _ b hd hcall, hI2 => exact rehacer_preserva R _ _ b hd hI2 hcall
    | .limpiar _ hd, _ => exact limpiar_preserva R _ hd
  exact ⟨hI2, hI2.recon⟩

/-- Witness for C1: the invariant at the initial state, a concrete
dibujar_punto(1, 2) step, and the conclusion at the reached state. -/
theorem invariante_reconstruccion_testigo :
    Inv R0 (estadoInicial R0) ∧ DibStep R0 (estadoInicial R0) estadoTrazo1 ∧
      (Inv R0 estadoTrazo1 ∧
        reconstruir R0 estadoTrazo1 = some estadoTrazo1.dibujo) := by
  have hInv : Inv R0 (estadoInicial R0) :=
    ⟨by decide, rfl, by simp [estadoInicial], fun habs => absurd habs (by decide)⟩
  have hStep : DibStep R0 (estadoInicial R0) estadoTrazo1 :=
    DibStep.dibujar _ _ 1 2 (fun habs => absurd habs (by decide)) (by decide)
  exact ⟨hInv, hStep, invariante_reconstruccion R0 _ _ hInv hStep⟩

/-- C1 counterexample, two reachable scenarios.  (i) After cargar_dibujo
the cursor 0 is a valid history_index but replaying records [0, 0] from
blank hits the missing 'puntos' key of the 'imagen_cargada' record
(KeyError, modelled as none) instead of reproducing the canvas.  (ii)
borrar_punto on a fresh manager opens a borrado stroke; the dispatcher then
calls dibujar_punto without an intervening terminar_dibujo (Dibujar button
pressed in modo 'borrar'), and on the resulting state the replay (two
eraser circles) differs from the eager canvas (one). -/
theorem reconstruccion_contraejemplo :
    ((cargar_dibujo R0 (estadoInicial R0) "dibujo.png").1 = true ∧
      estadoImagen.index = 0 ∧ estadoImagen.historial.length = 1 ∧
      reconstruir R0 estadoImagen = none ∧
      reconstruir R0 estadoImagen ≠ some estadoImagen.dibujo) ∧
    (borrar_punto R0 (estadoInicial R0) 3 4 = some estadoBorrado1 ∧
      dibujar_punto R0 estadoBorrado1 1 2 = some estadoMixto ∧
      reconstruir R0 estadoMixto = some 2 ∧ estadoMixto.dibujo = 1 ∧
      reconstruir R0 estadoMixto ≠ some estadoMixto.dibujo) := by
  exact ⟨⟨rfl, rfl, rfl, rfl, by decide⟩,
    ⟨by decide, by decide, rfl, rfl, by decide⟩⟩

/-- C2 (amended): on any drawing state satisfying the reconstruction
invariant Inv — the canvas equals the replay of records
[0, historial_index] and no record is 'imagen_cargada' — with
historial_index ≥ 0, deshacer() then rehacer() both return True and
restore the exact pre-undo state: canvas pixels, cursor, and every other
field.  The invariant hypothesis is genuinely needed, not merely a
trazo/borrado history (see the counterexample): on the cargar_dibujo
history rehacer() raises KeyError, and on the reachable state whose open
'borrado' stroke was continued by dibujar_punto both calls return True yet
the canvas comes back as the replay, not the pre-undo pixels. -/
theorem deshacer_rehacer_inverso {Pix : Type} (R : Raster Pix)
    (s : DibState Pix) (hI : Inv R s) (hix : 0 ≤ s.index) :
    ∃ s1, deshacer R s = some (true, s1) ∧ rehacer R s1 = some (true, s) := by
  obtain ⟨hlo, hhi⟩ := hI.cotas
  have htot : ∃ pix1, reconstruir R { s with index := s.index - 1 } = some pix1 := by
    apply reconstruirAux_total
    intro t ht
    exact hI.sinImagen t (List.take_subset _ _ ht)
  obtain ⟨pix1, hpix1⟩ := htot
  refine ⟨{ s with index := s.index - 1, dibujo := pix1 }, ?_, ?_⟩
  · unfold deshacer
    rw [if_pos hix]
    unfold reconstruir_dibujo
    rw [hpix1]
    rfl
  · unfold rehacer
    dsimp only
    rw [if_pos (by omega)]
    have hidx : s.index - 1 + 1 = s.index := by ring
    rw [hidx]
    have hrec2 : reconstruir R { s with index := s.index, dibujo := pix1 } =
        some s.dibujo := hI.recon
    unfold reconstruir_dibujo
    rw [hrec2]
    rfl

/-- Witness for C2 at a one-stroke history with the stroke closed. -/
theorem deshacer_rehacer_inverso_testigo :
    Inv R0 estadoTrazoCerrado ∧ 0 ≤ estadoTrazoCerrado.index ∧
      ∃ s1, deshacer R0 estadoTrazoCerrado = some (true, s1) ∧
        rehacer R0 s1 = some (true, estadoTrazoCerrado) := by
  have hInv : Inv R0 estadoTrazoCerrado :=
    ⟨by decide, rfl, by decide, fun habs => absurd habs (by decide)⟩
  exact ⟨hInv, by decide, deshacer_rehacer_inverso R0 _ hInv (by decide)⟩

/-- C2 counterexample, two scenarios.  (i) On the history created by
cargar_dibujo, deshacer() returns True but the following rehacer() raises
KeyError inside _reconstruir_dibujo instead of returning True and
restoring the image.  (ii) On the reachable mixed-stroke state estadoMixto
(pure borrado history, cursor 0 ≥ 0), deshacer() and rehacer() both return
True but the rebuilt canvas (2) is not the pre-undo canvas (1). -/
theorem deshacer_rehacer_contraejemplo :
    (deshacer R0 estadoImagen = some (true, estadoDeshecho) ∧
      rehacer R0 estadoDeshecho = none) ∧
    (0 ≤ estadoMixto.index ∧
      deshacer R0 estadoMixto = some (true, estadoMixtoDeshecho) ∧
      rehacer R0 estadoMixtoDeshecho = some (true, estadoMixtoRehecho) ∧
      estadoMixtoRehecho.dibujo ≠ estadoMixto.dibujo) := by
  exact ⟨⟨by decide, by decide⟩,
    ⟨by decide, by decide, by decide, by decide⟩⟩

/-- C4: starting a new stroke (draw or erase) from a state with redoable
records first truncates the log to the first historial_index + 1 records,
appends the new record, sets the cursor to the new last index, and an
immediately subsequent rehacer() returns False leaving the state intact. -/
theorem truncamiento_redo {Pix : Type} (R : Raster Pix) (s : DibState Pix)
    (x y : Int) (hd : s.dibujando = false)
    (hb : 0 ≤ x ∧ x < (s.resolution.1 : Int) ∧ 0 ≤ y ∧ y < (s.resolution.2 : Int))
    (_hlo : -1 ≤ s.index) (_hred : s.index < (s.historial.length : Int) - 1) :
    (∃ s', dibujar_punto R s x y = some s' ∧
       s'.historial = s.historial.take (s.index + 1).toNat ++
         [Trazo.trazo s.color s.grosor [(x, y)]] ∧
       s'.index = (s'.historial.length : Int) - 1 ∧
       rehacer R s' = some (false, s')) ∧
    (∃ s', borrar_punto R s x y = some s' ∧
       s'.historial = s.historial.take (s.index + 1).toNat ++
         [Trazo.borrado s.radio [(x, y)]] ∧
       s'.index = (s'.historial.length : Int) - 1 ∧
       rehacer R s' = some (false, s')) := by
  constructor
  · refine ⟨_, dibujar_punto_nuevo R s x y hb hd, rfl, rfl, ?_⟩
    unfold rehacer
    dsimp only
    rw [if_neg (by omega)]
  · refine ⟨_, borrar_punto_nuevo R s x y hb hd, rfl, rfl, ?_⟩
    unfold rehacer
    dsimp only
    rw [if_neg (by omega)]

/-- Witness for C4 at a state with one undone (redoable) record. -/
theorem truncamiento_redo_testigo :
    estadoConRedo.dibujando = false ∧
      (0 ≤ (1 : Int) ∧ (1 : Int) < (estadoConRedo.resolution.1 : Int) ∧
        0 ≤ (2 : Int) ∧ (2 : Int) < (estadoConRedo.resolution.2 : Int)) ∧
      -1 ≤ estadoConRedo.index ∧
      estadoConRedo.index < (estadoConRedo.historial.length : Int) - 1 ∧
      ((∃ s', dibujar_punto R0 estadoConRedo 1 2 = some s' ∧
          s'.historial = estadoConRedo.historial.take
              (estadoConRedo.index + 1).toNat ++
            [Trazo.trazo estadoConRedo.color estadoConRedo.grosor [(1, 2)]] ∧
          s'.index = (s'.historial.length : Int) - 1 ∧
          rehacer R0 s' = some (false, s')) ∧
        (∃ s', borrar_punto R0 estadoConRedo 1 2 = some s' ∧
          s'.historial = estadoConRedo.historial.take
              (estadoConRedo.index + 1).toNat ++
            [Trazo.borrado estadoConRedo.radio [(1, 2)]] ∧
          s'.index = (s'.historial.length : Int) - 1 ∧
          rehacer R0 s' = some (false, s'))) :=
  ⟨by decide, by decide, by decide, by decide,
    truncamiento_redo R0 estadoConRedo 1 2 (by decide) (by decide)
      (by decide) (by decide)⟩

/-- C5: deshacer() at historial_index = -1 returns False and leaves the
whole drawing state unchanged. -/
theorem deshacer_frontera {Pix : Type} (R : Raster Pix) (s : DibState Pix)
    (h : s.index = -1) : deshacer R s = some (false, s) := by
  unfold deshacer
  rw [if_neg (by omega)]

/-- Witness for C5 at the initial state. -/
theorem deshacer_frontera_testigo :
    (estadoInicial R0).index = -1 ∧
      deshacer R0 (estadoInicial R0) = some (false, estadoInicial R0) :=
  ⟨by decide, deshacer_frontera R0 (estadoInicial R0) (by decide)⟩

/-- C10: a one-point DrawStroke leaves the canvas pixels unchanged, both
eagerly (dibujar_punto on a fresh stroke draws nothing) and on replay
(_reconstruir_dibujo skips 'trazo' records with fewer than two points),
while an EraseStroke rasterizes a filled eraser circle already at its
first point, both eagerly and on replay. -/
theorem primer_punto {Pix : Type} (R : Raster Pix) (s : DibState Pix)
    (x y : Int)
    (hb : 0 ≤ x ∧ x < (s.resolution.1 : Int) ∧ 0 ≤ y ∧ y < (s.resolution.2 : Int))
    (hd : s.dibujando = false) :
    (∃ s', dibujar_punto R s x y = some s' ∧ s'.dibujo = s.dibujo) ∧
    (∀ (colB : Color) (pix : Pix) (c : Color) (g : Nat) (p : Pt),
      renderTrazo R colB pix (Trazo.trazo c g [p]) = some pix) ∧
    (∃ s', borrar_punto R s x y = some s' ∧
       s'.dibujo = R.circle s.dibujo (x, y) s.radio s.colorBorrador) ∧
    (∀ (colB : Color) (pix : Pix) (r : Nat) (p : Pt),
      renderTrazo R colB pix (Trazo.borrado r [p]) =
        some (R.circle pix p r colB)) := by
  refine ⟨⟨_, dibujar_punto_nuevo R s x y hb hd, rfl⟩, ?_,
    ⟨_, borrar_punto_nuevo R s x y hb hd, rfl⟩, ?_⟩
  · intro colB pix c g p
    rfl
  · intro colB pix r p
    rfl

/-- Witness for C10 at the initial state and the point (1, 2). -/
theorem primer_punto_testigo :
    ((0 ≤ (1 : Int) ∧ (1 : Int) < ((estadoInicial R0).resolution.1 : Int) ∧
        0 ≤ (2 : Int) ∧ (2 : Int) < ((estadoInicial R0).resolution.2 : Int)) ∧
      (estadoInicial R0).dibujando = false) ∧
    ((∃ s', dibujar_punto R0 (estadoInicial R0) 1 2 = some s' ∧
        s'.dibujo = (estadoInicial R0).dibujo) ∧
      (∀ (colB : Color) (pix : Nat) (c : Color) (g : Nat) (p : Pt),
        renderTrazo R0 colB pix (Trazo.trazo c g [p]) = some pix) ∧
      (∃ s', borrar_punto R0 (estadoInicial R0) 1 2 = some s' ∧
        s'.dibujo = R0.circle (estadoInicial R0).dibujo (1, 2)
          (estadoInicial R0).radio (estadoInicial R0).colorBorrador) ∧
      (∀ (colB : Color) (pix : Nat) (r : Nat) (p : Pt),
        renderTrazo R0 colB pix (Trazo.borrado r [p]) =
          some (R0.circle pix p r colB))) :=
  ⟨⟨by decide, by decide⟩,
    primer_punto R0 (estadoInicial R0) 1 2 (by decide) (by decide)⟩

/-- C3 (amended): cargar_sesion with a complete dict fully replaces the
state and returns True; a missing file or an unpickling error returns False
with the prior state untouched.  (When the dict is missing a key it returns
False but keeps the fields assigned before the missing key — see the
counterexample; the load is not atomic.) -/
theorem cargar_sesion_casos {Pix : Type} (s : DibState Pix) (pix : Pix)
    (h : List Trazo) (i : Int) (c : Color) (g r : Nat) :
    cargar_sesion (ResultadoPickle.datos
        ⟨some pix, some h, some i, some c, some g, some r⟩) s =
      (true, { s with
        dibujo := pix, historial := h, index := i,
        color := c, grosor := g, radio := r }) ∧
    cargar_sesion ResultadoPickle.sinArchivo s = (false, s) ∧
    cargar_sesion ResultadoPickle.errorPickle s = (false, s) :=
  ⟨rfl, rfl, rfl⟩

/-- C3 counterexample: a dict holding only the 'dibujo' key makes
cargar_sesion return False after having already replaced the canvas — the
prior state is not left unchanged. -/
theorem cargar_sesion_parcial_contraejemplo :
    cargar_sesion (ResultadoPickle.datos
        ⟨some 7, none, none, none, none, none⟩) (estadoInicial R0) =
      (false, { (estadoInicial R0) with dibujo := 7 }) ∧
    { (estadoInicial R0) with dibujo := 7 } ≠ estadoInicial R0 :=
  ⟨rfl, by decide⟩

theorem ordenConsumo_eq {α : Type} (l : List α) : ordenConsumo l = l := by
  induction l with
  | nil => rfl
  | cons x xs ih => simp [ordenConsumo, ih]

theorem encolarTodos_acc {α : Type} (msgs : List (α × Bool)) (acc : List α) :
    encolarTodos acc msgs =
      (conPrioridad msgs).reverse ++ acc ++ sinPrioridad msgs := by
  induction msgs generalizing acc with
  | nil => simp [encolarTodos, conPrioridad, sinPrioridad]
  | cons m resto ih =>
    obtain ⟨texto, pr⟩ := m
    cases pr
    · have h1 : encolarTodos acc ((texto, false) :: resto) =
          encolarTodos (acc ++ [texto]) resto := rfl
      rw [h1, ih]
      simp [conPrioridad, sinPrioridad]
    · have h1 : encolarTodos acc ((texto, true) :: resto) =
          encolarTodos (texto :: acc) resto := rfl
      rw [h1, ih]
      simp [conPrioridad, sinPrioridad]

/-- C6 (amended): draining the queue speaks the priority messages first —
in reverse enqueue order, since each is inserted at index 0 — and then the
non-priority messages in FIFO enqueue order; in particular enqueuing A, B
non-priority and then C with priority yields spoken order C, A, B.
Equal-priority FIFO fails for two priority messages (counterexample). -/
theorem orden_cola_habla {α : Type} (msgs : List (α × Bool)) (a b c : α) :
    ordenConsumo (encolarTodos [] msgs) =
      (conPrioridad msgs).reverse ++ sinPrioridad msgs ∧
    ordenConsumo (encolarTodos [] [(a, false), (b, false), (c, true)]) =
      [c, a, b] := by
  constructor
  · rw [ordenConsumo_eq, encolarTodos_acc]
    simp
  · rfl

/-- C6 counterexample: two priority messages enqueued p1 then p2 are spoken
p2 then p1 — insertion at index 0 gives LIFO, not FIFO, among equal
(priority) messages. -/
theorem cola_prioridad_contraejemplo :
    ordenConsumo (encolarTodos ([] : List String)
        [("p1", true), ("p2", true)]) = ["p2", "p1"] ∧
    (["p2", "p1"] : List String) ≠ ["p1", "p2"] :=
  ⟨rfl, by decide⟩

/-- C8: in modo 'dibujar', the index finger raised with middle, ring and
pinky down (thumb ignored) triggers dibujar_punto at the fingertip
coordinate; the index finger together with any of middle/ring/pinky
instead reaches the terminar_dibujo branch — no draw-point call. -/
theorem gesto_dibujo (dedos : Dedos) (x y : Int) :
    (dedos.indice = true → dedos.medio = false → dedos.anular = false →
      dedos.menique = false →
      accion_gesto (some "dibujar") dedos x y = AccionGesto.dibujarPunto x y) ∧
    (dedos.indice = true →
      (dedos.medio = true ∨ dedos.anular = true ∨ dedos.menique = true) →
      accion_gesto (some "dibujar") dedos x y = AccionGesto.terminarDibujo) := by
  constructor
  · intro h1 h2 h3 h4
    unfold accion_gesto
    rw [if_pos ⟨rfl, h1, by simp [h2, h3, h4]⟩]
  · intro h1 h2
    unfold accion_gesto
    rw [if_neg (fun hcond => hcond.2.2 h2), if_neg (by decide)]

/-- Witness for C8 at the spec's two scenario vectors and fingertip
(5, 7). -/
theorem gesto_dibujo_testigo :
    accion_gesto (some "dibujar") ⟨false, true, false, false, false⟩ 5 7 =
      AccionGesto.dibujarPunto 5 7 ∧
    accion_gesto (some "dibujar") ⟨false, true, true, false, false⟩ 5 7 =
      AccionGesto.terminarDibujo :=
  ⟨(gesto_dibujo ⟨false, true, false, false, false⟩ 5 7).1 rfl rfl rfl rfl,
    (gesto_dibujo ⟨false, true, true, false, false⟩ 5 7).2 rfl (Or.inl rfl)⟩

theorem iniciar_pyttsx3_fallo (env : VoiceEnv) (st : VoiceState)
    (h : (iniciar_pyttsx3 env st).1 = false) : (iniciar_pyttsx3 env st).2 = st := by
  unfold iniciar_pyttsx3 at h ⊢
  split_ifs at h ⊢ <;> simp_all

theorem iniciar_google_fallo (env : VoiceEnv) (st : VoiceState)
    (h : (iniciar_google_tts env st).1 = false) :
    (iniciar_google_tts env st).2 = st := by
  unfold iniciar_google_tts at h ⊢
  split_ifs at h ⊢ <;> simp_all

theorem iniciar_azure_fallo (env : VoiceEnv) (st : VoiceState)
    (h : (iniciar_azure_tts env st).1 = false) :
    (iniciar_azure_tts env st).2 = st := by
  unfold iniciar_azure_tts at h ⊢
  split_ifs at h ⊢ <;> simp_all

theorem iniciar_offline_fallo (env : VoiceEnv) (st : VoiceState)
    (h : (iniciar_offline_tts env st).1 = false) :
    (iniciar_offline_tts env st).2 = st := by
  unfold iniciar_offline_tts at h ⊢
  split_ifs at h ⊢
  rfl

theorem iniciar_fallo (env : VoiceEnv) (st : VoiceState)
    (h : (iniciar env st).1 = false) : (iniciar env st).2 = st := by
  unfold iniciar at h ⊢
  dsimp only at h ⊢
  split_ifs at h ⊢ <;>
    first
      | exact iniciar_pyttsx3_fallo env st h
      | exact iniciar_google_fallo env st h
      | exact iniciar_azure_fallo env st h
      | exact iniciar_offline_fallo env st h
      | rfl

theorem iniciar_pyttsx3_vivo (env : VoiceEnv) (st : VoiceState)
    (h : (iniciar_pyttsx3 env st).1 = true) :
    ∃ m, (iniciar_pyttsx3 env st).2.motor_actual = some m ∧
      env.inicioExitoso m = true := by
  unfold iniciar_pyttsx3 at h ⊢
  split_ifs at h ⊢ with h1 h2
  exact ⟨_, rfl, h2⟩

theorem iniciar_google_vivo (env : VoiceEnv) (st : VoiceState)
    (h : (iniciar_google_tts env st).1 = true) :
    ∃ m, (iniciar_google_tts env st).2.motor_actual = some m ∧
      env.inicioExitoso m = true := by
  unfold iniciar_google_tts at h ⊢
  split_ifs at h ⊢ with h1 h2
  exact ⟨_, rfl, h2⟩

theorem iniciar_azure_vivo (env : VoiceEnv) (st : VoiceState)
    (h : (iniciar_azure_tts env st).1 = true) :
    ∃ m, (iniciar_azure_tts env st).2.motor_actual = some m ∧
      env.inicioExitoso m = true := by
  unfold iniciar_azure_tts at h ⊢
  split_ifs at h ⊢ with h1 h2
  exact ⟨_, rfl, h2⟩

theorem iniciar_offline_vivo (env : VoiceEnv) (st : VoiceState)
    (h : (iniciar_offline_tts env st).1 = true) :
    ∃ m, (iniciar_offline_tts env st).2.motor_actual = some m ∧
      env.inicioExitoso m = true := by
  unfold iniciar_offline_tts at h ⊢
  split_ifs at h ⊢ with h1
  exact ⟨_, rfl, h1⟩

theorem iniciar_vivo (env : VoiceEnv) (st : VoiceState)
    (h : (iniciar env st).1 = true) :
    ∃ m, (iniciar env st).2.motor_actual = some m ∧
      env.inicioExitoso m = true := by
  unfold iniciar at h ⊢
  dsimp only at h ⊢
  split_ifs at h ⊢ <;>
    first
      | exact iniciar_pyttsx3_vivo env st h
      | exact iniciar_google_vivo env st h
      | exact iniciar_azure_vivo env st h
      | exact iniciar_offline_vivo env st h

theorem iniciar_config (env : VoiceEnv) (st : VoiceState) (m : MotorVoz)
    (hc : st.config_motor = m.value) (hok : puedeIniciar env m = true) :
    iniciar env st =
      (true, { st with motor_actual := some m, iniciado := true }) := by
  cases m with
  | pyttsx3 =>
    obtain ⟨h1, h2⟩ := Bool.and_eq_true _ _ |>.mp hok
    unfold iniciar
    dsimp only
    rw [if_pos ⟨hc, h1⟩]
    unfold iniciar_pyttsx3
    rw [if_neg (by simp [h1]), if_pos h2]
  | google_tts =>
    obtain ⟨h1, h2⟩ := Bool.and_eq_true _ _ |>.mp hok
    unfold iniciar
    dsimp only
    rw [if_neg (fun hcon => by rw [hc] at hcon; exact absurd hcon.1 (by decide)),
      if_pos ⟨hc, h1⟩]
    unfold iniciar_google_tts
    rw [if_neg (by simp [h1]), if_pos h2]
  | azure_tts =>
    obtain ⟨h1, h2⟩ := Bool.and_eq_true _ _ |>.mp hok
    unfold iniciar
    dsimp only
    rw [if_neg (fun hcon => by rw [hc] at hcon; exact absurd hcon.1 (by decide)),
      if_neg (fun hcon => by rw [hc] at hcon; exact absurd hcon.1 (by decide)),
      if_pos ⟨hc, h1⟩]
    unfold iniciar_azure_tts
    rw [if_neg (by simp [h1]), if_pos h2]
  | offline_tts =>
    unfold iniciar
    dsimp only
    rw [if_neg (fun hcon => by rw [hc] at hcon; exact absurd hcon.1 (by decide)),
      if_neg (fun hcon => by rw [hc] at hcon; exact absurd hcon.1 (by decide)),
      if_neg (fun hcon => by rw [hc] at hcon; exact absurd hcon.1 (by decide)),
      if_pos hc]
    unfold iniciar_offline_tts
    rw [if_pos (show env.inicioExitoso MotorVoz.offline_tts = true from hok)]

/-- C7 (amended): after any cambiar_motor call the facade liveness
invariant is preserved (iniciado implies a backend whose start succeeded is
current); and whenever the start of the newly configured backend reports
failure and a previous backend exists and can start, the configuration is
reverted to it and it is restarted.  (The unamended claim fails when the
requested backend's library is unavailable: iniciar falls back to pyttsx3
and reports success, so nothing is reverted — see the counterexample.) -/
theorem cambiar_motor_recuperacion (env : VoiceEnv) (st : VoiceState)
    (nuevo : String) :
    (motorVivo env st → motorVivo env (cambiar_motor env st nuevo).2) ∧
    (∀ m : MotorVoz, esNombreMotor nuevo = true →
      (cambiar_motor env st nuevo).1 = false →
      st.motor_actual = some m → puedeIniciar env m = true →
      (cambiar_motor env st nuevo).2.config_motor = m.value ∧
      (cambiar_motor env st nuevo).2.iniciado = true ∧
      (cambiar_motor env st nuevo).2.motor_actual = some m) := by
  by_cases hv : esNombreMotor nuevo = true
  · have hinifalse :
        (if st.iniciado then { (detener st).2 with iniciado := false }
          else st).iniciado = false := by
      cases hini : st.iniciado <;> simp [detener, hini]
    have hmotor :
        (if st.iniciado then { (detener st).2 with iniciado := false }
          else st).motor_actual = st.motor_actual := by
      cases hini : st.iniciado <;> simp [detener, hini]
    obtain ⟨stM, hstM⟩ : ∃ stM : VoiceState, stM =
        { (if st.iniciado then { (detener st).2 with iniciado := false } else st) with
          config_motor := nuevo } := ⟨_, rfl⟩
    have hcm : cambiar_motor env st nuevo =
        (if (iniciar env stM).1 then (true, (iniciar env stM).2)
         else
           match (iniciar env stM).2.motor_actual with
           | some m =>
             (false, (iniciar env
               { (iniciar env stM).2 with config_motor := m.value }).2)
           | none => (false, (iniciar env stM).2)) := by
      rw [hstM]
      unfold cambiar_motor
      rw [if_neg (by simp [hv])]
    rcases hr : iniciar env stM with ⟨res, stR⟩
    rw [hr] at hcm
    dsimp only at hcm
    cases res
    · -- the start of the new configuration failed
      rw [if_neg (by simp)] at hcm
      have hstR : stM = stR := by
        have h2 := iniciar_fallo env stM (by rw [hr])
        rw [hr] at h2
        exact h2.symm
      subst hstR
      have hma : stM.motor_actual = st.motor_actual := by
        rw [hstM]
        dsimp only
        exact hmotor
      have hini2 : stM.iniciado = false := by
        rw [hstM]
        dsimp only
        exact hinifalse
      cases hsm : st.motor_actual with
      | none =>
        have hsm2 : stM.motor_actual = none := by rw [hma, hsm]
        have hcm2 : cambiar_motor env st nuevo = (false, stM) := by
          rw [hcm, hsm2]
        constructor
        · intro _
          rw [hcm2]
          intro habs
          dsimp only at habs
          rw [hini2] at habs
          exact absurd habs (by simp)
        · intro m _ _ hprev _
          exact absurd hprev (by simp)
      | some m0 =>
        have hsm2 : stM.motor_actual = some m0 := by rw [hma, hsm]
        have hcm2 : cambiar_motor env st nuevo =
            (false, (iniciar env { stM with config_motor := m0.value }).2) := by
          rw [hcm, hsm2]
        constructor
        · intro _
          rw [hcm2]
          rcases hr4 : iniciar env { stM with config_motor := m0.value }
            with ⟨res4, st4R⟩
          cases res4
          · have h4 := iniciar_fallo env
              { stM with config_motor := m0.value } (by rw [hr4])
            rw [hr4] at h4
            dsimp only at h4 ⊢
            subst h4
            intro habs
            dsimp only at habs
            rw [hini2] at habs
            exact absurd habs (by simp)
          · have h4 := iniciar_vivo env
              { stM with config_motor := m0.value } (by rw [hr4])
            rw [hr4] at h4
            dsimp only at h4 ⊢
            intro _
            exact h4
        · intro m _ _ hprev hok
          injection hprev with hm0
          subst hm0
          have hc : ({ stM with config_motor := m0.value } :
              VoiceState).config_motor = m0.value := rfl
          rw [hcm2, iniciar_config env _ m0 hc hok]
          exact ⟨rfl, rfl, rfl⟩
    · -- the start of the new configuration succeeded
      rw [if_pos (by simp)] at hcm
      constructor
      · intro _
        rw [hcm]
        have h2 := iniciar_vivo env stM (by rw [hr])
        rw [hr] at h2
        dsimp only at h2 ⊢
        intro _
        exact h2
      · intro m _ hfail _ _
        rw [hcm] at hfail
        exact absurd hfail (by simp)
  · have hcm : cambiar_motor env st nuevo = (false, st) := by
      unfold cambiar_motor
      rw [if_pos (by revert hv; cases esNombreMotor nuevo <;> simp)]
    constructor
    · intro hpre
      rw [hcm]
      exact hpre
    · intro m hval _ _ _
      exact absurd hval hv

/-- Witness for C7: starting google fails (its init sequence fails though
the library is present), so the configuration reverts to azure and azure is
restarted; liveness is preserved. -/
theorem cambiar_motor_recuperacion_testigo :
    (motorVivo envW stAzure → motorVivo envW (cambiar_motor envW stAzure "google_tts").2) ∧
      (esNombreMotor "google_tts" = true ∧
        (cambiar_motor envW stAzure "google_tts").1 = false ∧
        stAzure.motor_actual = some MotorVoz.azure_tts ∧
        puedeIniciar envW MotorVoz.azure_tts = true) ∧
      ((cambiar_motor envW stAzure "google_tts").2.config_motor =
          MotorVoz.azure_tts.value ∧
        (cambiar_motor envW stAzure "google_tts").2.iniciado = true ∧
        (cambiar_motor envW stAzure "google_tts").2.motor_actual =
          some MotorVoz.azure_tts) :=
  ⟨(cambiar_motor_recuperacion envW stAzure "google_tts").1,
    ⟨by decide, by decide, by decide, by decide⟩,
    (cambiar_motor_recuperacion envW stAzure "google_tts").2
      MotorVoz.azure_tts (by decide) (by decide) (by decide) (by decide)⟩

/-- C7 counterexample: switching to google_tts while its library is
unavailable makes iniciar silently fall back to pyttsx3 and report success,
so the configuration keeps naming google_tts — a backend that never
started — and the previous azure backend is neither re-selected nor
restarted. -/
theorem cambiar_motor_fallback_contraejemplo :
    envF.googleDisponible = false ∧
      stAzure.motor_actual = some MotorVoz.azure_tts ∧
      (cambiar_motor envF stAzure "google_tts").1 = true ∧
      (cambiar_motor envF stAzure "google_tts").2.config_motor = "google_tts" ∧
      (cambiar_motor envF stAzure "google_tts").2.motor_actual =
        some MotorVoz.pyttsx3 := by
  decide

/-- C9 (amended): after _auto_guardar_sesion at most 6 autosave files
remain (the pruning to 5 happens before the new autosave is written), and
every pruned autosave name is ≤ every surviving old autosave name — the
files kept are the most recent, names sorting chronologically.  (The
unamended "at most 5" fails: with 5 autosaves present none is pruned and
the write leaves 6 — see the counterexample.) -/
theorem autosave_poda (existentes : List String) (nuevo : String)
    (hnd : existentes.Nodup) (hnuevo : esAutosave nuevo = true)
    (hfresh : nuevo ∉ existentes) :
    ((auto_guardar_sesion existentes nuevo).filter esAutosave).length ≤ 6 ∧
    ∀ f ∈ existentes, esAutosave f = true →
      f ∉ auto_guardar_sesion existentes nuevo →
      ∀ g ∈ existentes, esAutosave g = true →
        g ∈ auto_guardar_sesion existentes nuevo → f ≤ g := by
  obtain ⟨A, hA⟩ : ∃ A, A = existentes.filter esAutosave := ⟨_, rfl⟩
  obtain ⟨S, hS⟩ : ∃ S, S = List.insertionSort (· ≤ ·) A := ⟨_, rfl⟩
  obtain ⟨E, hE⟩ : ∃ E, E = S.take (A.length - 5) := ⟨_, rfl⟩
  obtain ⟨D, hD⟩ : ∃ D, D = S.drop (A.length - 5) := ⟨_, rfl⟩
  have hperm : List.Perm S A := by rw [hS]; exact List.perm_insertionSort _ _
  have hnodA : A.Nodup := by rw [hA]; exact hnd.filter _
  have hnodS : S.Nodup := hperm.nodup_iff.mpr hnodA
  have hsorted : List.Sorted (· ≤ ·) S := by
    rw [hS]; exact List.sorted_insertionSort _ _
  have htd : E ++ D = S := by
    rw [hE, hD]; exact List.take_append_drop _ _
  by_cases hlen : A.length > 5
  · have hres : auto_guardar_sesion existentes nuevo =
        existentes.filter (fun f => decide (f ∉ E)) ++ [nuevo] := by
      rw [hE, hS, hA]
      unfold auto_guardar_sesion
      dsimp only
      rw [if_pos (by rw [hA] at hlen; exact hlen)]
    rw [← htd] at hnodS
    obtain ⟨-, -, hdisj⟩ := List.nodup_append.mp hnodS
    have hkeepfil : D.filter (fun f => decide (f ∉ E)) = D := by
      refine List.filter_eq_self.mpr ?_
      intro a ha
      simp only [decide_eq_true_eq]
      exact fun hmem => hdisj hmem ha
    have helimfil : E.filter (fun f => decide (f ∉ E)) = [] := by
      refine List.filter_eq_nil_iff.mpr ?_
      intro a ha
      simp only [decide_eq_true_eq, not_not]
      exact ha
    have h4 : (E ++ D).filter (fun f => decide (f ∉ E)) = D := by
      rw [List.filter_append, helimfil, hkeepfil, List.nil_append]
    have hfilperm :
        List.Perm ((existentes.filter (fun f => decide (f ∉ E))).filter esAutosave) D := by
      rw [List.filter_comm, ← hA]
      refine (hperm.filter _).symm.trans ?_
      rw [← htd, h4]
    constructor
    · rw [hres, List.filter_append]
      have h1 : ([nuevo].filter esAutosave) = [nuevo] := by
        simp [hnuevo]
      rw [h1, List.length_append]
      have h2 := hfilperm.length_eq
      have h5 : D.length = A.length - (A.length - 5) := by
        rw [hD, List.length_drop, hS, (List.perm_insertionSort _ _).length_eq]
      rw [h2, h5]
      simp only [List.length_singleton]
      omega
    · intro f hf hAf hfnot g hg hAg hgres
      rw [hres] at hfnot hgres
      have hfel : f ∈ E := by
        by_contra hfe
        exact hfnot (List.mem_append_left _
          (List.mem_filter.mpr ⟨hf, by simpa using hfe⟩))
      have hgkeep : g ∈ D := by
        rcases List.mem_append.mp hgres with hg1 | hg2
        · have hgnot : g ∉ E := by
            have := (List.mem_filter.mp hg1).2
            simpa using this
          have hgsort : g ∈ S :=
            hperm.mem_iff.mpr (by rw [hA]; exact List.mem_filter.mpr ⟨hg, hAg⟩)
          rw [← htd] at hgsort
          rcases List.mem_append.mp hgsort with h | h
          · exact absurd h hgnot
          · exact h
        · simp at hg2
          subst hg2
          exact absurd hg hfresh
      have hpw := hsorted
      rw [List.Sorted, ← htd, List.pairwise_append] at hpw
      exact hpw.2.2 f hfel g hgkeep
  · have hres : auto_guardar_sesion existentes nuevo =
        existentes.filter (fun f => decide (f ∉ ([] : List String))) ++ [nuevo] := by
      unfold auto_guardar_sesion
      dsimp only
      rw [if_neg (by rw [hA] at hlen; exact hlen)]
    have hid : existentes.filter (fun f => decide (f ∉ ([] : List String))) =
        existentes := by
      refine List.filter_eq_self.mpr ?_
      intro a _
      simp
    rw [hid] at hres
    constructor
    · rw [hres, List.filter_append]
      have h1 : ([nuevo].filter esAutosave) = [nuevo] := by
        simp [hnuevo]
      rw [h1, List.length_append]
      rw [hA] at hlen
      simp only [List.length_singleton]
      omega
    · intro f hf hAf hfnot g hg hAg hgres
      rw [hres] at hfnot
      exact absurd (List.mem_append_left _ hf) hfnot

/-- Witness for C9 with seven existing autosaves and one other file. -/
theorem autosave_poda_testigo :
    (["autosave_1.session", "autosave_2.session", "autosave_3.session",
        "autosave_4.session", "autosave_5.session", "autosave_6.session",
        "autosave_7.session", "otro.txt"] : List String).Nodup ∧
      esAutosave "autosave_8.session" = true ∧
      "autosave_8.session" ∉ (["autosave_1.session", "autosave_2.session",
        "autosave_3.session", "autosave_4.session", "autosave_5.session",
        "autosave_6.session", "autosave_7.session", "otro.txt"] : List String) ∧
      (((auto_guardar_sesion ["autosave_1.session", "autosave_2.session",
          "autosave_3.session", "autosave_4.session", "autosave_5.session",
          "autosave_6.session", "autosave_7.session", "otro.txt"]
          "autosave_8.session").filter esAutosave).length ≤ 6 ∧
        ∀ f ∈ (["autosave_1.session", "autosave_2.session",
            "autosave_3.session", "autosave_4.session", "autosave_5.session",
            "autosave_6.session", "autosave_7.session", "otro.txt"] :
              List String), esAutosave f = true →
          f ∉ auto_guardar_sesion ["autosave_1.session", "autosave_2.session",
            "autosave_3.session", "autosave_4.session", "autosave_5.session",
            "autosave_6.session", "autosave_7.session", "otro.txt"]
            "autosave_8.session" →
          ∀ g ∈ (["autosave_1.session", "autosave_2.session",
              "autosave_3.session", "autosave_4.session", "autosave_5.session",
              "autosave_6.session", "autosave_7.session", "otro.txt"] :
                List String), esAutosave g = true →
            g ∈ auto_guardar_sesion ["autosave_1.session",
              "autosave_2.session", "autosave_3.session", "autosave_4.session",
              "autosave_5.session", "autosave_6.session", "autosave_7.session",
              "otro.txt"] "autosave_8.session" → f ≤ g) :=
  ⟨by decide, by decide, by decide,
    autosave_poda _ _ (by decide) (by decide) (by decide)⟩

/-- C9 counterexample: with exactly 5 autosaves present nothing is pruned
and the new write leaves 6 autosave files — more than the claimed 5. -/
theorem autosave_seis_contraejemplo :
    ((auto_guardar_sesion ["autosave_1.session", "autosave_2.session",
        "autosave_3.session", "autosave_4.session", "autosave_5.session"]
        "autosave_6.session").filter esAutosave).length = 6 ∧
      ¬ ((auto_guardar_sesion ["autosave_1.session", "autosave_2.session",
        "autosave_3.session", "autosave_4.session", "autosave_5.session"]
        "autosave_6.session").filter esAutosave).length ≤ 5 := by
  exact ⟨rfl, by decide⟩

end SistemaKinect
